import Mathlib

/-!
Verification development for the promotional-rewards backend
(voucher issuance with campaign-bounded stock).

The repository contains four near-duplicate implementations of one HTTP
API: a PostgreSQL variant (server.js), two SQLite variants embedded in the
same file, and a MongoDB variant. The business logic of the endpoints
relevant here is shallowly embedded below:

* `requestVoucher`   models POST /api/vouchers of the MongoDB variant,
  which guards the stock check with a campaign-existence check
  (`Campaign not found`).
* `requestVoucherPg` models POST /api/vouchers of the PostgreSQL/SQLite
  variants, which have no existence check: an unknown campaign id makes
  the handler read `.quantity` of `undefined`, the thrown TypeError is
  caught, and the response is a 500 error.
* `updateVoucherStatus`   models PUT /api/voucher/:id/status of the
  MongoDB variant (success derived from `modifiedCount`).
* `updateVoucherStatusPg` models the same endpoint of the
  PostgreSQL/SQLite variants (always responds success).
* `vouchersCount` models GET /api/vouchers/count (identical logic in all
  variants).

Request fields coming from JSON bodies are modelled with `JsVal`, so that
the JavaScript truthiness tests (`if (campaignId)`, `if (!campaignId)`)
are represented faithfully.
-/

/-- Model of the JavaScript values a JSON body field can carry, as far as
the handlers inspect them: null, undefined (absent field), a number, or
a string. -/
inductive JsVal where
  | vNull : JsVal
  | vUndef : JsVal
  | vNum : Int → JsVal
  | vStr : String → JsVal
deriving DecidableEq, Repr

/-- JavaScript truthiness of a `JsVal`: null, undefined, 0 and the empty
string are falsy, every other modelled value is truthy. -/
def JsVal.truthy : JsVal → Bool
  | JsVal.vNull => false
  | JsVal.vUndef => false
  | JsVal.vNum n => n != 0
  | JsVal.vStr t => t != ""

/-- A row of voucher_campaigns (a document of the voucher_campaigns
collection). The creation timestamp is not inspected by any modelled
endpoint and is omitted. -/
structure Campaign where
  id : String
  content : String
  quantity : Int
  status : String
deriving DecidableEq, Repr

/-- A row of vouchers (a document of the vouchers collection).
claimedAt is nullable. -/
structure Voucher where
  id : String
  username : String
  value : String
  prize : String
  status : String
  claimedAt : Option String
deriving DecidableEq, Repr

/-- The persisted state the modelled endpoints touch: the campaigns
table/collection, the vouchers table/collection, and a counter
generating fresh voucher ids (SERIAL column, respectively ObjectId
generation). -/
structure Store where
  campaigns : List Campaign
  vouchers : List Voucher
  nextId : Nat
deriving DecidableEq, Repr

/-- Look up a campaign by primary key, as
`SELECT * FROM voucher_campaigns WHERE id = $1`, respectively
`voucher_campaigns.findOne` on `_id`. Only a string id can address a
campaign. -/
def findCampaignJs (s : Store) : JsVal → Option Campaign
  | JsVal.vStr t => s.campaigns.find? (fun c => c.id == t)
  | _ => none

/-- Count the vouchers whose value equals the given string, as
`SELECT COUNT(*) FROM vouchers WHERE value = $1`, respectively
`vouchers.countDocuments` on value. -/
def countVouchersByValue (s : Store) (val : String) : Nat :=
  s.vouchers.countP (fun v => v.value == val)

/-- Append a voucher with the given fields and a fresh id, as
`INSERT INTO vouchers (username, value, prize, status, claimedAt)`,
respectively `vouchers.insertOne`. -/
def insertVoucher (s : Store) (username val prize status : String)
    (claimedAt : Option String) : Store :=
  { s with
    vouchers := s.vouchers ++
      [{ id := toString s.nextId, username := username, value := val,
         prize := prize, status := status, claimedAt := claimedAt }],
    nextId := s.nextId + 1 }

/-- The body of a POST /api/vouchers request. -/
structure VoucherReq where
  username : String
  value : String
  prize : String
  status : String
  claimedAt : Option String
  campaignId : JsVal
deriving DecidableEq, Repr

/-- The responses the modelled handlers produce. -/
inductive Resp where
  | success : Resp
  | campaignNotFound : Resp
  | outOfStock : Resp
  | serverError : Resp
deriving DecidableEq, Repr

/-- POST /api/vouchers, MongoDB variant: when campaignId is truthy, fetch
the campaign (reject with a 400 Campaign-not-found error when absent),
count the vouchers whose value equals the campaign content, and reject
with a 400 Out-of-stock error when that count has reached the campaign
quantity; otherwise insert a voucher carrying the caller-supplied
fields. -/
def requestVoucher (s : Store) (r : VoucherReq) : Resp × Store :=
  if r.campaignId.truthy then
    match findCampaignJs s r.campaignId with
    | none => (Resp.campaignNotFound, s)
    | some campaign =>
      if campaign.quantity ≤ (countVouchersByValue s campaign.content : Int) then
        (Resp.outOfStock, s)
      else
        (Resp.success,
         insertVoucher s r.username r.value r.prize r.status r.claimedAt)
  else
    (Resp.success,
     insertVoucher s r.username r.value r.prize r.status r.claimedAt)

/-- POST /api/vouchers, PostgreSQL/SQLite variants: same stock check, but
no existence check. An unknown campaign id makes the handler dereference
`campaign.quantity` on `undefined`; the TypeError is caught and answered
with a 500 error (and no insert happens). -/
def requestVoucherPg (s : Store) (r : VoucherReq) : Resp × Store :=
  if r.campaignId.truthy then
    match findCampaignJs s r.campaignId with
    | none => (Resp.serverError, s)
    | some campaign =>
      if campaign.quantity ≤ (countVouchersByValue s campaign.content : Int) then
        (Resp.outOfStock, s)
      else
        (Resp.success,
         insertVoucher s r.username r.value r.prize r.status r.claimedAt)
  else
    (Resp.success,
     insertVoucher s r.username r.value r.prize r.status r.claimedAt)

/-- Run a list of POST /api/vouchers requests sequentially (MongoDB
variant), collecting the responses and threading the store. -/
def runRequests (s : Store) : List VoucherReq → List Resp × Store
  | [] => ([], s)
  | r :: rest =>
    let step := requestVoucher s r
    let out := runRequests step.2 rest
    (step.1 :: out.1, out.2)

/-- The update PUT /api/voucher/:id/status applies to a voucher: status
Issued also sets claimedAt to the current timestamp, status Void also
clears claimedAt, any other status touches only the status field. -/
def applyStatus (st now : String) (v : Voucher) : Voucher :=
  if st == "Issued" then { v with status := st, claimedAt := some now }
  else if st == "Void" then { v with status := st, claimedAt := none }
  else { v with status := st }

/-- Replace the first element satisfying p by its image under f (MongoDB
updateOne touches at most one matching document). -/
def updateFirst (p : Voucher → Bool) (f : Voucher → Voucher) :
    List Voucher → List Voucher
  | [] => []
  | v :: vs => if p v then f v :: vs else v :: updateFirst p f vs

/-- PUT /api/voucher/:id/status, MongoDB variant: updateOne on the id,
responding with success equal to `modifiedCount > 0` — true exactly when
a matching document existed and the $set actually changed it. -/
def updateVoucherStatus (s : Store) (id st now : String) : Bool × Store :=
  match s.vouchers.find? (fun v => v.id == id) with
  | none => (false, s)
  | some v =>
    (decide (¬ applyStatus st now v = v),
     { s with
       vouchers := updateFirst (fun w => w.id == id) (applyStatus st now)
         s.vouchers })

/-- PUT /api/voucher/:id/status, PostgreSQL/SQLite variants: run the
UPDATE on the id and always respond with success true, whether or not a
row matched. -/
def updateVoucherStatusPg (s : Store) (id st now : String) : Bool × Store :=
  (true,
   { s with
     vouchers := s.vouchers.map
       (fun v => if v.id == id then applyStatus st now v else v) })

/-- GET /api/vouchers/count: 0 when campaignId is falsy, 0 when the
campaign is not found, otherwise the count of vouchers whose value
equals the campaign content. No branch surfaces an error. -/
def vouchersCount (s : Store) (campaignId : JsVal) : Nat :=
  if campaignId.truthy then
    match findCampaignJs s campaignId with
    | none => 0
    | some campaign => countVouchersByValue s campaign.content
  else 0

/-- Concrete campaign with quantity 1 used by concrete instances. -/
def campA : Campaign :=
  { id := "c1", content := "A", quantity := 1, status := "active" }

/-- Concrete campaign with quantity 2 used by concrete instances. -/
def campA2 : Campaign :=
  { id := "c1", content := "A", quantity := 2, status := "active" }

/-- Concrete campaign with quantity 0 used by concrete instances. -/
def campZero : Campaign :=
  { id := "c0", content := "A", quantity := 0, status := "active" }

/-- Empty store. -/
def store0 : Store := { campaigns := [], vouchers := [], nextId := 0 }

/-- Store holding only campA. -/
def storeA1 : Store := { campaigns := [campA], vouchers := [], nextId := 0 }

/-- Store holding only campA2. -/
def storeA2 : Store := { campaigns := [campA2], vouchers := [], nextId := 0 }

/-- Store holding only campZero. -/
def storeZero : Store :=
  { campaigns := [campZero], vouchers := [], nextId := 0 }

/-- Concrete voucher used by concrete instances of the status update. -/
def voucherV1 : Voucher :=
  { id := "v1", username := "alice", value := "A", prize := "p1",
    status := "Pending", claimedAt := some "T0" }

/-- Store holding campA and voucherV1. -/
def storeV : Store :=
  { campaigns := [campA], vouchers := [voucherV1], nextId := 1 }

/-- Request referencing campaign c1 with value A (the campaign content). -/
def reqA : VoucherReq :=
  { username := "u", value := "A", prize := "p", status := "Pending",
    claimedAt := none, campaignId := JsVal.vStr "c1" }

/-- Request referencing campaign c1 with value B (not the campaign
content). -/
def reqB : VoucherReq :=
  { username := "u", value := "B", prize := "p", status := "Pending",
    claimedAt := none, campaignId := JsVal.vStr "c1" }

/-- Request referencing the nonexistent campaign id zz. -/
def reqZ : VoucherReq :=
  { username := "u", value := "A", prize := "p", status := "Pending",
    claimedAt := none, campaignId := JsVal.vStr "zz" }

/-- Request referencing campaign c0 (quantity 0) with its content as
value. -/
def reqA0 : VoucherReq :=
  { username := "u", value := "A", prize := "p", status := "Pending",
    claimedAt := none, campaignId := JsVal.vStr "c0" }

/-- Request with no campaignId (the field reads as undefined). -/
def reqNoCamp : VoucherReq :=
  { username := "u", value := "A", prize := "p", status := "Pending",
    claimedAt := none, campaignId := JsVal.vUndef }

/-- Request whose campaignId is the falsy number 0. -/
def reqFalsy : VoucherReq :=
  { username := "u", value := "B", prize := "p", status := "Pending",
    claimedAt := none, campaignId := JsVal.vNum 0 }

/-- Inserting a voucher does not touch the campaigns table. -/
theorem findCampaignJs_insertVoucher (s : Store) (u v p st : String)
    (ca : Option String) (q : JsVal) :
    findCampaignJs (insertVoucher s u v p st ca) q = findCampaignJs s q := by
  cases q <;> rfl

/-- Counting after an insert: the count grows by one exactly when the
inserted value matches the counted value. -/
theorem countVouchersByValue_insertVoucher (s : Store) (u v p st : String)
    (ca : Option String) (val : String) :
    countVouchersByValue (insertVoucher s u v p st ca) val
      = countVouchersByValue s val + (if v == val then 1 else 0) := by
  simp [countVouchersByValue, insertVoucher, List.countP_append, List.countP_cons]

/-- The status update never changes the id of a voucher. -/
theorem applyStatus_id (st now : String) (v : Voucher) :
    (applyStatus st now v).id = v.id := by
  simp only [applyStatus]
  split
  · rfl
  · split <;> rfl

/-- The status update never changes the username, value or prize of a
voucher. -/
theorem applyStatus_frame (st now : String) (v : Voucher) :
    (applyStatus st now v).username = v.username
    ∧ (applyStatus st now v).value = v.value
    ∧ (applyStatus st now v).prize = v.prize := by
  simp only [applyStatus]
  split
  · exact ⟨rfl, rfl, rfl⟩
  · split <;> exact ⟨rfl, rfl, rfl⟩

/-- If a list has a first element satisfying p and f preserves p on it,
then after updateFirst the first element satisfying p is its image. -/
theorem find?_updateFirst (p : Voucher → Bool) (f : Voucher → Voucher)
    (l : List Voucher) (v : Voucher)
    (h : l.find? p = some v) (hf : p (f v) = true) :
    (updateFirst p f l).find? p = some (f v) := by
  induction l with
  | nil => simp at h
  | cons w ws ih =>
    by_cases hw : p w = true
    · rw [List.find?_cons_of_pos ws hw] at h
      injection h with h
      subst h
      rw [updateFirst, if_pos hw, List.find?_cons_of_pos ws hf]
    · rw [List.find?_cons_of_neg ws hw] at h
      rw [updateFirst, if_neg hw,
        List.find?_cons_of_neg (updateFirst p f ws) hw]
      exact ih h

/-- updateFirst leaves the list unchanged exactly when the first element
satisfying p is a fixed point of f. -/
theorem updateFirst_eq_iff (p : Voucher → Bool) (f : Voucher → Voucher)
    (l : List Voucher) (v : Voucher) (h : l.find? p = some v) :
    updateFirst p f l = l ↔ f v = v := by
  induction l with
  | nil => simp at h
  | cons w ws ih =>
    by_cases hw : p w = true
    · rw [List.find?_cons_of_pos ws hw] at h
      injection h with h
      subst h
      rw [updateFirst, if_pos hw]
      constructor
      · intro he
        exact (List.cons.injEq _ _ _ _ ▸ he).1
      · intro he
        rw [he]
    · rw [List.find?_cons_of_neg ws hw] at h
      rw [updateFirst, if_neg hw]
      constructor
      · intro he
        exact (ih h).mp (List.cons.injEq _ _ _ _ ▸ he).2
      · intro he
        rw [(ih h).mpr he]

/-- Pointwise frame property of updateFirst for the status update: every
position keeps its username, value and prize, and a position whose id
differs from the addressed id is entirely unchanged. -/
theorem updateFirst_frame (id st now : String) (l : List Voucher) :
    List.Forall₂
      (fun w w' => w'.username = w.username ∧ w'.value = w.value
        ∧ w'.prize = w.prize ∧ (w.id ≠ id → w' = w))
      l (updateFirst (fun w => w.id == id) (applyStatus st now) l) := by
  induction l with
  | nil => exact List.Forall₂.nil
  | cons w ws ih =>
    by_cases hw : (w.id == id) = true
    · rw [updateFirst, if_pos hw]
      refine List.Forall₂.cons ?_ ?_
      · obtain ⟨hu, hv, hp⟩ := applyStatus_frame st now w
        exact ⟨hu, hv, hp, fun hne => absurd (by simpa using hw) hne⟩
      · exact List.forall₂_same.mpr (fun x _ => ⟨rfl, rfl, rfl, fun _ => rfl⟩)
    · rw [updateFirst, if_neg hw]
      exact List.Forall₂.cons ⟨rfl, rfl, rfl, fun _ => rfl⟩ ih

/-- Characterisation of a sequential run of POST /api/vouchers requests
that all reference one existing campaign and all carry the campaign
content as their value: with quantity N and k matching vouchers already
present, the number of success responses is min (N - k) (length rs), the
final count of matching vouchers is k plus that, and every attempt from
position N - k on is answered Out of stock. -/
theorem runRequests_camp (rs : List VoucherReq) (s : Store) (c : Campaign)
    (cid val : String) (N k : Nat)
    (h0 : cid ≠ "")
    (h1 : findCampaignJs s (JsVal.vStr cid) = some c)
    (h2 : c.quantity = (N : Int))
    (h3 : c.content = val)
    (h4 : countVouchersByValue s val = k)
    (h5 : ∀ r ∈ rs, r.campaignId = JsVal.vStr cid ∧ r.value = val) :
    (runRequests s rs).1.length = rs.length
    ∧ (runRequests s rs).1.countP (fun x => x == Resp.success)
        = min (N - k) rs.length
    ∧ countVouchersByValue (runRequests s rs).2 val
        = k + min (N - k) rs.length
    ∧ findCampaignJs (runRequests s rs).2 (JsVal.vStr cid) = some c
    ∧ ∀ i, (hi : i < (runRequests s rs).1.length) → N ≤ k + i →
        (runRequests s rs).1.get ⟨i, hi⟩ = Resp.outOfStock := by
  induction rs generalizing s k with
  | nil =>
    refine ⟨rfl, by simp [runRequests], by simpa [runRequests] using h4,
      by simpa [runRequests] using h1, ?_⟩
    intro i hi
    simp [runRequests] at hi
  | cons r tl ih =>
    obtain ⟨hrc, hrv⟩ := h5 r (List.mem_cons_self r tl)
    have htl : ∀ x ∈ tl, x.campaignId = JsVal.vStr cid ∧ x.value = val :=
      fun x hx => h5 x (List.mem_cons_of_mem r hx)
    have htruthy : (JsVal.vStr cid).truthy = true := by
      simp [JsVal.truthy, h0]
    by_cases hk : N ≤ k
    · -- the campaign is exhausted: the request is rejected, nothing changes
      have hstep : requestVoucher s r = (Resp.outOfStock, s) := by
        simp only [requestVoucher, hrc, htruthy, h1, if_true]
        rw [h3, h4, h2, if_pos (by exact_mod_cast hk)]
      obtain ⟨ihl, ihc, ihv, ihf, ihi⟩ := ih s k h1 h4 htl
      rw [runRequests, hstep]
      refine ⟨by simpa using ihl, ?_, ?_, ihf, ?_⟩
      · have : N - k = 0 := by omega
        simp [List.countP_cons, ihc, this]
      · have : N - k = 0 := by omega
        simp [ihv, this]
      · intro i hi hNi
        cases i with
        | zero => rfl
        | succ j =>
          exact ihi j (by simpa using hi) (by omega)
    · -- stock remains: the request succeeds and the count grows by one
      push_neg at hk
      have hstep : requestVoucher s r
          = (Resp.success,
             insertVoucher s r.username r.value r.prize r.status r.claimedAt) := by
        simp only [requestVoucher, hrc, htruthy, h1, if_true]
        rw [h3, h4, h2,
          if_neg (by intro hcon; exact absurd (by exact_mod_cast hcon) (by omega))]
      set s1 := insertVoucher s r.username r.value r.prize r.status r.claimedAt
        with hs1
      have hf1 : findCampaignJs s1 (JsVal.vStr cid) = some c := by
        rw [hs1, findCampaignJs_insertVoucher]; exact h1
      have hc1 : countVouchersByValue s1 val = k + 1 := by
        rw [hs1, countVouchersByValue_insertVoucher, h4, hrv]
        simp
      obtain ⟨ihl, ihc, ihv, ihf, ihi⟩ := ih s1 (k + 1) hf1 hc1 htl
      rw [runRequests, hstep]
      refine ⟨by simpa using ihl, ?_, ?_, ihf, ?_⟩
      · simp only [List.countP_cons, ihc, List.length_cons, beq_self_eq_true,
          if_true]
        omega
      · rw [ihv]
        simp only [List.length_cons]
        omega
      · intro i hi hNi
        cases i with
        | zero => omega
        | succ j =>
          exact ihi j (by simpa using hi) (by omega)

/-- Claim C1, counterexample: the claim quantifies over any sequence of
sequential requestVoucher calls referencing campaign C, without
constraining the caller-supplied value. Campaign c1 has content A and
quantity N = 1; two sequential calls referencing c1 but carrying value B
both succeed — so the second attempt, the (N+1)-th, is not rejected with
Out of stock, and the number of successfully created vouchers with
value equal to the campaign content is 0, not min (1, 2) = 1. The stock
check counts vouchers whose value equals the campaign content, while the
insert stores the caller-supplied value, so calls with a different value
never deplete the stock. -/
theorem C1_counterexample :
    findCampaignJs storeA1 (JsVal.vStr "c1") = some campA
    ∧ campA.quantity = 1
    ∧ campA.content = "A"
    ∧ (runRequests storeA1 [reqB, reqB]).1 = [Resp.success, Resp.success]
    ∧ countVouchersByValue (runRequests storeA1 [reqB, reqB]).2 "A" = 0 := by
  decide

/-- Claim C1, amended: for a campaign C with quantity N, after any
sequence of sequential requestVoucher calls that reference C and whose
caller-supplied value equals the campaign content, the number of
successful creations (all carrying value C.content) is
min (N, number of attempts), the count of vouchers with value C.content
afterwards is that same number and never exceeds N, and every attempt
from the (N+1)-th on is rejected with Out of stock — provided the store
initially holds no voucher with value C.content. -/
theorem requestVoucher_campaign_stock (rs : List VoucherReq) (s : Store)
    (c : Campaign) (cid val : String) (N : Nat)
    (h0 : cid ≠ "")
    (h1 : findCampaignJs s (JsVal.vStr cid) = some c)
    (h2 : c.quantity = (N : Int))
    (h3 : c.content = val)
    (h4 : countVouchersByValue s val = 0)
    (h5 : ∀ r ∈ rs, r.campaignId = JsVal.vStr cid ∧ r.value = val) :
    (runRequests s rs).1.countP (fun x => x == Resp.success)
        = min N rs.length
    ∧ countVouchersByValue (runRequests s rs).2 val = min N rs.length
    ∧ countVouchersByValue (runRequests s rs).2 val ≤ N
    ∧ ∀ i, (hi : i < (runRequests s rs).1.length) → N ≤ i →
        (runRequests s rs).1.get ⟨i, hi⟩ = Resp.outOfStock := by
  obtain ⟨hl, hc, hv, hf, hi⟩ :=
    runRequests_camp rs s c cid val N 0 h0 h1 h2 h3 h4 h5
  refine ⟨by simpa using hc, by simpa using hv, ?_, ?_⟩
  · have := hv
    simp only [Nat.sub_zero, Nat.zero_add] at this
    omega
  · intro i hik hNi
    exact hi i hik (by omega)

/-- Claim C1, witness: campaign c1 with content A and quantity 2; three
sequential requests carrying value A yield two successes, a final count
of 2 = min (2, 3), and the third attempt is rejected with Out of
stock. -/
theorem C1_witness :
    (("c1" : String) ≠ ""
      ∧ findCampaignJs storeA2 (JsVal.vStr "c1") = some campA2
      ∧ campA2.quantity = ((2 : Nat) : Int)
      ∧ campA2.content = "A"
      ∧ countVouchersByValue storeA2 "A" = 0
      ∧ ∀ r ∈ [reqA, reqA, reqA],
          r.campaignId = JsVal.vStr "c1" ∧ r.value = "A")
    ∧ ((runRequests storeA2 [reqA, reqA, reqA]).1.countP
          (fun x => x == Resp.success) = min 2 3
      ∧ countVouchersByValue (runRequests storeA2 [reqA, reqA, reqA]).2 "A"
          = min 2 3
      ∧ countVouchersByValue (runRequests storeA2 [reqA, reqA, reqA]).2 "A"
          ≤ 2
      ∧ ∀ i, (hi : i < (runRequests storeA2 [reqA, reqA, reqA]).1.length) →
          2 ≤ i →
          (runRequests storeA2 [reqA, reqA, reqA]).1.get ⟨i, hi⟩
            = Resp.outOfStock) :=
  ⟨⟨by decide, by decide, by decide, by decide, by decide, by decide⟩,
   requestVoucher_campaign_stock [reqA, reqA, reqA] storeA2 campA2 "c1" "A" 2
     (by decide) (by decide) (by decide) (by decide) (by decide) (by decide)⟩

/-- Claim C2, counterexample: campaign c1 exists with content A and free
stock; the request carries value B and succeeds, and the persisted
voucher carries value B, the caller-supplied value — not the campaign
content A. -/
theorem C2_counterexample :
    findCampaignJs storeA1 (JsVal.vStr "c1") = some campA
    ∧ campA.content = "A"
    ∧ (requestVoucher storeA1 reqB).1 = Resp.success
    ∧ ((requestVoucher storeA1 reqB).2).vouchers.map (fun v => v.value)
        = ["B"]
    ∧ ¬ ("B" = "A") := by
  decide

/-- Claim C2, amended: a requestVoucher call that names an existing
campaign with remaining stock succeeds and persists a voucher whose
value is the caller-supplied value as-is; the campaign content is not
forced onto it. -/
theorem requestVoucher_value_asSupplied (s : Store) (r : VoucherReq)
    (c : Campaign)
    (htr : r.campaignId.truthy = true)
    (h1 : findCampaignJs s r.campaignId = some c)
    (h2 : (countVouchersByValue s c.content : Int) < c.quantity) :
    requestVoucher s r
      = (Resp.success,
         insertVoucher s r.username r.value r.prize r.status r.claimedAt)
    ∧ ((requestVoucher s r).2).vouchers
      = s.vouchers ++
        [{ id := toString s.nextId, username := r.username, value := r.value,
           prize := r.prize, status := r.status,
           claimedAt := r.claimedAt }] := by
  have hmain : requestVoucher s r
      = (Resp.success,
         insertVoucher s r.username r.value r.prize r.status r.claimedAt) := by
    simp only [requestVoucher, htr, if_true, h1]
    rw [if_neg (not_le.mpr h2)]
  exact ⟨hmain, by rw [hmain]; rfl⟩

/-- Claim C2, witness: campaign c1 with content A and quantity 2, request
carrying value B: the call succeeds and the store gains exactly one
voucher holding the caller-supplied value B. -/
theorem C2_witness :
    ((JsVal.vStr "c1").truthy = true
      ∧ findCampaignJs storeA2 (JsVal.vStr "c1") = some campA2
      ∧ (countVouchersByValue storeA2 campA2.content : Int) < campA2.quantity)
    ∧ (requestVoucher storeA2 reqB
        = (Resp.success,
           insertVoucher storeA2 reqB.username reqB.value reqB.prize
             reqB.status reqB.claimedAt)
      ∧ ((requestVoucher storeA2 reqB).2).vouchers
        = storeA2.vouchers ++
          [{ id := toString storeA2.nextId, username := reqB.username,
             value := reqB.value, prize := reqB.prize, status := reqB.status,
             claimedAt := reqB.claimedAt }]) :=
  ⟨⟨by decide, by decide, by decide⟩,
   requestVoucher_value_asSupplied storeA2 reqB campA2
     (by decide) (by decide) (by decide)⟩

/-- Claim C3, counterexample: in the PostgreSQL/SQLite variants
(server.js) there is no campaign-existence check. A request naming the
nonexistent campaign id zz makes the handler read the quantity of an
undefined campaign; the thrown TypeError is caught and answered with a
500 server error, not with a 400 Campaign-not-found rejection. -/
theorem C3_counterexample :
    findCampaignJs storeA1 (JsVal.vStr "zz") = none
    ∧ (requestVoucherPg storeA1 reqZ).1 = Resp.serverError
    ∧ ¬ ((requestVoucherPg storeA1 reqZ).1 = Resp.campaignNotFound) := by
  decide

/-- Claim C3, amended: a requestVoucher call whose truthy campaignId
names no existing campaign is rejected with Campaign not found by the
MongoDB variant, while the PostgreSQL/SQLite variants answer it with a
500 server error; in both cases the store is unchanged, so no voucher is
created. -/
theorem requestVoucher_unknownCampaign (s : Store) (r : VoucherReq)
    (cid : String)
    (hid : r.campaignId = JsVal.vStr cid) (h0 : cid ≠ "")
    (h : findCampaignJs s (JsVal.vStr cid) = none) :
    requestVoucher s r = (Resp.campaignNotFound, s)
    ∧ requestVoucherPg s r = (Resp.serverError, s) := by
  have htr : (JsVal.vStr cid).truthy = true := by
    simp [JsVal.truthy, h0]
  constructor
  · simp only [requestVoucher, hid, htr, if_true, h]
  · simp only [requestVoucherPg, hid, htr, if_true, h]

/-- Claim C3, witness: the request naming the nonexistent campaign id zz
is rejected with Campaign not found by the MongoDB variant and with a
500 server error by the PostgreSQL/SQLite variants, both leaving the
store unchanged. -/
theorem C3_witness :
    (reqZ.campaignId = JsVal.vStr "zz"
      ∧ ("zz" : String) ≠ ""
      ∧ findCampaignJs storeA1 (JsVal.vStr "zz") = none)
    ∧ (requestVoucher storeA1 reqZ = (Resp.campaignNotFound, storeA1)
      ∧ requestVoucherPg storeA1 reqZ = (Resp.serverError, storeA1)) :=
  ⟨⟨by decide, by decide, by decide⟩,
   requestVoucher_unknownCampaign storeA1 reqZ "zz"
     (by decide) (by decide) (by decide)⟩

/-- Claim C4: a requestVoucher call with no campaignId (the field reads
as undefined) skips the stock check and inserts the voucher
unconditionally and successfully, in both the MongoDB and the
PostgreSQL/SQLite variants, whatever the campaigns and vouchers in the
store. -/
theorem requestVoucher_absentCampaign (s : Store) (r : VoucherReq)
    (h : r.campaignId = JsVal.vUndef) :
    requestVoucher s r
      = (Resp.success,
         insertVoucher s r.username r.value r.prize r.status r.claimedAt)
    ∧ requestVoucherPg s r
      = (Resp.success,
         insertVoucher s r.username r.value r.prize r.status r.claimedAt) := by
  constructor
  · simp [requestVoucher, h, JsVal.truthy]
  · simp [requestVoucherPg, h, JsVal.truthy]

/-- Claim C4, witness: the campaign-less request succeeds even though the
only campaign in the store has quantity 0 and the request value equals
its content — no stock check is applied. -/
theorem C4_witness :
    (reqNoCamp.campaignId = JsVal.vUndef
      ∧ campZero.quantity = 0 ∧ campZero.content = reqNoCamp.value)
    ∧ (requestVoucher storeZero reqNoCamp
        = (Resp.success,
           insertVoucher storeZero reqNoCamp.username reqNoCamp.value
             reqNoCamp.prize reqNoCamp.status reqNoCamp.claimedAt)
      ∧ requestVoucherPg storeZero reqNoCamp
        = (Resp.success,
           insertVoucher storeZero reqNoCamp.username reqNoCamp.value
             reqNoCamp.prize reqNoCamp.status reqNoCamp.claimedAt)) :=
  ⟨⟨by decide, by decide, by decide⟩,
   requestVoucher_absentCampaign storeZero reqNoCamp (by decide)⟩

/-- Claim C5: a requestVoucher call that is rejected — with Campaign not
found or Out of stock in the MongoDB variant, with Out of stock in the
PostgreSQL/SQLite variants — leaves the store unchanged, so the rejected
request creates no voucher. -/
theorem requestVoucher_rejected_noEffect (s : Store) (r : VoucherReq) :
    ((requestVoucher s r).1 = Resp.campaignNotFound
        ∨ (requestVoucher s r).1 = Resp.outOfStock →
      (requestVoucher s r).2 = s)
    ∧ ((requestVoucherPg s r).1 = Resp.outOfStock →
      (requestVoucherPg s r).2 = s) := by
  constructor
  · intro h
    by_cases htr : r.campaignId.truthy = true
    · cases hfc : findCampaignJs s r.campaignId with
      | none => simp [requestVoucher, htr, hfc]
      | some c =>
        by_cases hq : c.quantity ≤ (countVouchersByValue s c.content : Int)
        · simp [requestVoucher, htr, hfc, hq]
        · exfalso
          rcases h with h | h <;> simp [requestVoucher, htr, hfc, hq] at h
    · rw [Bool.not_eq_true] at htr
      exfalso
      rcases h with h | h <;> simp [requestVoucher, htr] at h
  · intro h
    by_cases htr : r.campaignId.truthy = true
    · cases hfc : findCampaignJs s r.campaignId with
      | none => simp [requestVoucherPg, htr, hfc]
      | some c =>
        by_cases hq : c.quantity ≤ (countVouchersByValue s c.content : Int)
        · simp [requestVoucherPg, htr, hfc, hq]
        · exfalso
          simp [requestVoucherPg, htr, hfc, hq] at h
    · rw [Bool.not_eq_true] at htr
      exfalso
      simp [requestVoucherPg, htr] at h

/-- Claim C5, witness: the request referencing the quantity-0 campaign c0
is rejected with Out of stock and the store is unchanged; also the
Campaign-not-found rejection of reqZ leaves the store unchanged. -/
theorem C5_witness :
    ((requestVoucher storeZero reqA0).1 = Resp.campaignNotFound
        ∨ (requestVoucher storeZero reqA0).1 = Resp.outOfStock)
    ∧ (requestVoucher storeZero reqA0).2 = storeZero
    ∧ (requestVoucherPg storeZero reqA0).1 = Resp.outOfStock
    ∧ (requestVoucherPg storeZero reqA0).2 = storeZero :=
  ⟨Or.inr (by decide),
   (requestVoucher_rejected_noEffect storeZero reqA0).1 (Or.inr (by decide)),
   by decide,
   (requestVoucher_rejected_noEffect storeZero reqA0).2 (by decide)⟩

/-- Claim C6: when a voucher with the addressed id exists, the status
update turns it into applyStatus of itself; with newStatus Issued its
status becomes Issued and claimedAt the (non-null) current timestamp,
with newStatus Void its status becomes Void and claimedAt null, and with
any other newStatus its status becomes that string while claimedAt is
untouched. -/
theorem updateVoucherStatus_fields (s : Store) (id st now : String)
    (v : Voucher)
    (h : s.vouchers.find? (fun w => w.id == id) = some v) :
    ((updateVoucherStatus s id st now).2).vouchers.find?
        (fun w => w.id == id) = some (applyStatus st now v)
    ∧ (st = "Issued" →
        (applyStatus st now v).status = "Issued"
        ∧ (applyStatus st now v).claimedAt = some now)
    ∧ (st = "Void" →
        (applyStatus st now v).status = "Void"
        ∧ (applyStatus st now v).claimedAt = none)
    ∧ (st ≠ "Issued" → st ≠ "Void" →
        (applyStatus st now v).status = st
        ∧ (applyStatus st now v).claimedAt = v.claimedAt) := by
  have hpv : (v.id == id) = true := by
    have hp := List.find?_some h
    simpa using hp
  have hpf : ((applyStatus st now v).id == id) = true := by
    rw [applyStatus_id]; exact hpv
  refine ⟨?_, ?_, ?_, ?_⟩
  · simp only [updateVoucherStatus, h]
    exact find?_updateFirst _ _ _ _ h hpf
  · intro hst
    subst hst
    rw [applyStatus, if_pos (by decide)]
    exact ⟨rfl, rfl⟩
  · intro hst
    subst hst
    rw [applyStatus, if_neg (by decide), if_pos (by decide)]
    exact ⟨rfl, rfl⟩
  · intro h1 h2
    rw [applyStatus, if_neg (by simp [h1]), if_neg (by simp [h2])]
    exact ⟨rfl, rfl⟩

/-- Claim C6, witness: the store holds voucher v1 with claimedAt T0;
updating it to Issued at time T1 yields status Issued and claimedAt T1
for the addressed voucher. -/
theorem C6_witness :
    storeV.vouchers.find? (fun w => w.id == "v1") = some voucherV1
    ∧ (((updateVoucherStatus storeV "v1" "Issued" "T1").2).vouchers.find?
          (fun w => w.id == "v1")
        = some (applyStatus "Issued" "T1" voucherV1)
      ∧ ("Issued" = "Issued" →
          (applyStatus "Issued" "T1" voucherV1).status = "Issued"
          ∧ (applyStatus "Issued" "T1" voucherV1).claimedAt = some "T1")
      ∧ ("Issued" = "Void" →
          (applyStatus "Issued" "T1" voucherV1).status = "Void"
          ∧ (applyStatus "Issued" "T1" voucherV1).claimedAt = none)
      ∧ ("Issued" ≠ "Issued" → "Issued" ≠ "Void" →
          (applyStatus "Issued" "T1" voucherV1).status = "Issued"
          ∧ (applyStatus "Issued" "T1" voucherV1).claimedAt
            = voucherV1.claimedAt)) :=
  ⟨by decide,
   updateVoucherStatus_fields storeV "v1" "Issued" "T1" voucherV1 (by decide)⟩

/-- Claim C7: the status update changes at most the status and claimedAt
fields of the addressed voucher — every voucher keeps its username,
value and prize, and every voucher whose id differs from the addressed
id is entirely unchanged (the voucher list keeps its length and
order). -/
theorem updateVoucherStatus_frameOnly (s : Store) (id st now : String) :
    List.Forall₂
      (fun w w' => w'.username = w.username ∧ w'.value = w.value
        ∧ w'.prize = w.prize ∧ (w.id ≠ id → w' = w))
      s.vouchers ((updateVoucherStatus s id st now).2).vouchers := by
  cases hfind : s.vouchers.find? (fun v => v.id == id) with
  | none =>
    simp only [updateVoucherStatus, hfind]
    exact List.forall₂_same.mpr (fun x _ => ⟨rfl, rfl, rfl, fun _ => rfl⟩)
  | some v =>
    simp only [updateVoucherStatus, hfind]
    exact updateFirst_frame id st now s.vouchers

/-- Claim C7, witness: instantiation of the frame property at the
concrete store holding voucher v1, updated to Void. -/
theorem C7_witness :
    List.Forall₂
      (fun w w' => w'.username = w.username ∧ w'.value = w.value
        ∧ w'.prize = w.prize ∧ (w.id ≠ "v1" → w' = w))
      storeV.vouchers
      ((updateVoucherStatus storeV "v1" "Void" "T1").2).vouchers :=
  updateVoucherStatus_frameOnly storeV "v1" "Void" "T1"

/-- Claim C8, counterexample: in the PostgreSQL/SQLite variants
(server.js) PUT /api/voucher/:id/status always responds success true —
here on an empty store, where the addressed id v9 names no voucher and
no row is modified, contradicting the claim that success is false when
the id does not exist. -/
theorem C8_counterexample :
    store0.vouchers.find? (fun w => w.id == "v9") = none
    ∧ (updateVoucherStatusPg store0 "v9" "Issued" "T0").1 = true
    ∧ (updateVoucherStatusPg store0 "v9" "Issued" "T0").2 = store0 := by
  decide

/-- Claim C8, amended: in the MongoDB variant the success field is true
exactly when a document was actually modified (in particular it is false
when the id names no voucher), while the PostgreSQL/SQLite variants
always respond success true regardless of the affected-row count. -/
theorem updateVoucherStatus_success_iff (s : Store) (id st now : String) :
    ((updateVoucherStatus s id st now).1 = true ↔
      ((updateVoucherStatus s id st now).2).vouchers ≠ s.vouchers)
    ∧ (s.vouchers.find? (fun w => w.id == id) = none →
        (updateVoucherStatus s id st now).1 = false)
    ∧ (updateVoucherStatusPg s id st now).1 = true := by
  refine ⟨?_, ?_, rfl⟩
  · cases hfind : s.vouchers.find? (fun v => v.id == id) with
    | none =>
      simp only [updateVoucherStatus, hfind]
      simp
    | some v =>
      simp only [updateVoucherStatus, hfind, decide_eq_true_eq]
      exact not_congr (updateFirst_eq_iff _ _ s.vouchers v hfind).symm
  · intro hnone
    simp only [updateVoucherStatus, hnone]

/-- Claim C8, witness: on the empty store the MongoDB variant reports
success false for the nonexistent id v9, and on the store holding
voucher v1 (status Pending) the Void update modifies the document and
reports success true. -/
theorem C8_witness :
    (store0.vouchers.find? (fun w => w.id == "v9") = none
      ∧ (updateVoucherStatus store0 "v9" "Issued" "T0").1 = false)
    ∧ (((updateVoucherStatus storeV "v1" "Void" "T1").2).vouchers
        ≠ storeV.vouchers
      ∧ (updateVoucherStatus storeV "v1" "Void" "T1").1 = true) :=
  ⟨⟨by decide,
    (updateVoucherStatus_success_iff store0 "v9" "Issued" "T0").2.1
      (by decide)⟩,
   ⟨by decide,
    ((updateVoucherStatus_success_iff storeV "v1" "Void" "T1").1).mpr
      (by decide)⟩⟩

/-- Claim C9: GET /api/vouchers/count answers 0 when campaignId is falsy
(missing) and 0 when the campaign is not found — no branch surfaces an
error — and answers the count of vouchers whose value equals the
campaign content when the campaign exists. -/
theorem vouchersCount_spec (s : Store) (q : JsVal) :
    (q.truthy = false → vouchersCount s q = 0)
    ∧ (findCampaignJs s q = none → vouchersCount s q = 0)
    ∧ ∀ c, findCampaignJs s q = some c → q.truthy = true →
        vouchersCount s q = countVouchersByValue s c.content := by
  refine ⟨?_, ?_, ?_⟩
  · intro h
    simp [vouchersCount, h]
  · intro h
    by_cases htr : q.truthy = true
    · simp [vouchersCount, htr, h]
    · rw [Bool.not_eq_true] at htr
      simp [vouchersCount, htr]
  · intro c hc htr
    simp [vouchersCount, htr, hc]

/-- Claim C9, witness: on the store holding campaign c1 (content A) and
voucher v1 (value A): a missing campaignId answers 0, the unknown id zz
answers 0, and the id c1 answers the count of vouchers with value A,
namely 1. -/
theorem C9_witness :
    (JsVal.vUndef.truthy = false ∧ vouchersCount storeV JsVal.vUndef = 0)
    ∧ (findCampaignJs storeV (JsVal.vStr "zz") = none
      ∧ vouchersCount storeV (JsVal.vStr "zz") = 0)
    ∧ (findCampaignJs storeV (JsVal.vStr "c1") = some campA
      ∧ vouchersCount storeV (JsVal.vStr "c1")
          = countVouchersByValue storeV campA.content
      ∧ countVouchersByValue storeV campA.content = 1) :=
  ⟨⟨by decide, (vouchersCount_spec storeV JsVal.vUndef).1 (by decide)⟩,
   ⟨by decide, (vouchersCount_spec storeV (JsVal.vStr "zz")).2.1 (by decide)⟩,
   ⟨by decide,
    (vouchersCount_spec storeV (JsVal.vStr "c1")).2.2 campA
      (by decide) (by decide),
    by decide⟩⟩

/-- Claim C10: the presence test on campaignId is JavaScript truthiness —
for each of the falsy values null, undefined, 0 and the empty string the
stock check is skipped, the voucher is inserted unconditionally with
success, and the outcome is identical to the same request without a
campaignId, in both the MongoDB and the PostgreSQL/SQLite variants. -/
theorem requestVoucher_falsyCampaign (s : Store) (r : VoucherReq)
    (h : r.campaignId = JsVal.vNull ∨ r.campaignId = JsVal.vUndef
      ∨ r.campaignId = JsVal.vNum 0 ∨ r.campaignId = JsVal.vStr "") :
    requestVoucher s r
      = (Resp.success,
         insertVoucher s r.username r.value r.prize r.status r.claimedAt)
    ∧ requestVoucher s { r with campaignId := JsVal.vUndef }
        = requestVoucher s r
    ∧ requestVoucherPg s r
      = (Resp.success,
         insertVoucher s r.username r.value r.prize r.status r.claimedAt) := by
  have htr : r.campaignId.truthy = false := by
    rcases h with h | h | h | h <;> simp [h, JsVal.truthy]
  have hu : ({ r with campaignId := JsVal.vUndef } : VoucherReq).campaignId.truthy
      = false := rfl
  refine ⟨?_, ?_, ?_⟩
  · simp [requestVoucher, htr]
  · simp [requestVoucher, htr, hu]
  · simp [requestVoucherPg, htr]

/-- Claim C10, witness: the request whose campaignId is the falsy number
0 is inserted unconditionally with success — even though the store only
holds the quantity-0 campaign — and behaves exactly as the request with
the field absent. -/
theorem C10_witness :
    (reqFalsy.campaignId = JsVal.vNull ∨ reqFalsy.campaignId = JsVal.vUndef
      ∨ reqFalsy.campaignId = JsVal.vNum 0
      ∨ reqFalsy.campaignId = JsVal.vStr "")
    ∧ (requestVoucher storeZero reqFalsy
        = (Resp.success,
           insertVoucher storeZero reqFalsy.username reqFalsy.value
             reqFalsy.prize reqFalsy.status reqFalsy.claimedAt)
      ∧ requestVoucher storeZero { reqFalsy with campaignId := JsVal.vUndef }
          = requestVoucher storeZero reqFalsy
      ∧ requestVoucherPg storeZero reqFalsy
        = (Resp.success,
           insertVoucher storeZero reqFalsy.username reqFalsy.value
             reqFalsy.prize reqFalsy.status reqFalsy.claimedAt)) :=
  ⟨by decide, requestVoucher_falsyCampaign storeZero reqFalsy (by decide)⟩
